import Mathlib

/-!
Verification of the STRIPS solver interface of StegoSTRIPSus
(`src/stegochess/solver.py`).

The Python functions are shallowly embedded as pure Lean functions:

* string manipulation (`str.splitlines`, `str.strip`, `str.startswith`,
  `str.split`, `str.replace`, `str.isdigit`, `int(...)`) is modelled over
  the character list of a `String`; line boundaries are modelled as `'\n'`,
  the only terminator occurring in this pipeline;
* the file system is modelled as a partial map from path strings to file
  contents, threaded explicitly through the functions that write or remove
  files;
* the subprocess call inside `call_strips_solver` is modelled by passing its
  observable result (return code, captured stdout, captured stderr) as
  arguments; lines the Python code prints become fields of the returned
  `SolverOutcome` (the `"[STRIPS]"`-prefixed lines it echoes, respectively
  the captured stderr it surfaces on a non-zero exit, are the diagnostics).
-/

namespace StegoSolver

/-! ## Models of the Python string primitives -/

/-- Characters `str.strip()` removes (ASCII whitespace, as in Python). -/
def pyWhitespace (c : Char) : Bool :=
  c = ' ' || c = '\t' || c = '\n' || c = '\r' || c = '\x0b' || c = '\x0c'

/-- Model of Python `s.strip()`. -/
def pyStrip (s : String) : String :=
  ⟨((s.data.dropWhile pyWhitespace).reverse.dropWhile pyWhitespace).reverse⟩

/-- Model of Python `s.startswith(pre)`. -/
def pyStartsWith (s pre : String) : Bool :=
  pre.data.isPrefixOf s.data

/-- Split a character list on a single separator character
(Python `s.split(sep)` semantics: `"".split(sep) = [""]`). -/
def splitOnChar (sep : Char) : List Char → List (List Char)
  | [] => [[]]
  | c :: rest =>
    if c = sep then [] :: splitOnChar sep rest
    else
      match splitOnChar sep rest with
      | [] => [[c]]
      | h :: t => (c :: h) :: t

/-- Model of Python `s.split(sep)` for a one-character separator. -/
def pySplitChar (s : String) (sep : Char) : List String :=
  (splitOnChar sep s.data).map (fun l => ⟨l⟩)

/-- Model of Python `s.splitlines()` with `'\n'` line boundaries:
split on `'\n'` and drop the empty piece a trailing terminator leaves. -/
def pylines (s : String) : List String :=
  if s = "" then []
  else
    let ls := pySplitChar s '\n'
    if ls.getLast? = some "" then ls.dropLast else ls

/-- Model of Python `'\n'.join(lines)`. -/
def joinLines : List String → String
  | [] => ""
  | [l] => l
  | l :: ls => l ++ "\n" ++ joinLines ls

/-- Split a character list on the two-character separator `--`,
left to right, non-overlapping (Python `s.split('--')` semantics). -/
def splitOnDashDash : List Char → List (List Char)
  | [] => [[]]
  | '-' :: '-' :: rest => [] :: splitOnDashDash rest
  | c :: rest =>
    match splitOnDashDash rest with
    | [] => [[c]]
    | h :: t => (c :: h) :: t

/-- Model of Python `'--' in s`. -/
def containsDashDash : List Char → Bool
  | [] => false
  | '-' :: '-' :: _ => true
  | _ :: rest => containsDashDash rest

/-- Model of Python `s.isdigit()` (ASCII digits). -/
def pyIsDigit (s : String) : Bool :=
  !s.data.isEmpty && s.data.all Char.isDigit

/-- Model of Python `int(s)` on an all-digit string. -/
def pyInt (s : String) : Nat :=
  s.data.foldl (fun a c => a * 10 + (c.toNat - '0'.toNat)) 0

/-- One replacement pass of Python `s.replace(pat, rep)` (all occurrences,
left to right, non-overlapping); fuelled by the input length. -/
def pyReplaceAux : Nat → List Char → List Char → List Char → List Char
  | 0, xs, _, _ => xs
  | _ + 1, [], _, _ => []
  | n + 1, c :: rest, pat, rep =>
    if pat.isPrefixOf (c :: rest) then
      rep ++ pyReplaceAux n (List.drop (pat.length - 1) rest) pat rep
    else
      c :: pyReplaceAux n rest pat rep

/-- Model of Python `s.replace(pat, rep)` for a non-empty pattern. -/
def pyReplace (s pat rep : String) : String :=
  ⟨pyReplaceAux s.data.length s.data pat.data rep.data⟩

/-! ## `eval_conditionals` (solver.py lines 41-73) -/

/-- The condition tag of an opening marker line:
Python `line.strip().split('--')[1].strip()`. -/
def condOf (l : String) : String :=
  pyStrip ⟨(splitOnDashDash (pyStrip l).data).getD 1 []⟩

/-- The guard of the opening-marker branch:
Python `line.strip().startswith('[[') and '--' in line`. -/
def isOpenMarker (l : String) : Bool :=
  pyStartsWith (pyStrip l) "[[" && containsDashDash l.data

/-- The line loop of `eval_conditionals`: one flat `skip_section` flag,
marker lines are consumed, other lines are emitted unless skipping. -/
def evalCondLines (conds : List String) : Bool → List String → List String
  | _, [] => []
  | skip, l :: ls =>
    if isOpenMarker l then
      evalCondLines conds (!(conds.contains (condOf l))) ls
    else if pyStrip l = "]]" then
      evalCondLines conds false ls
    else if skip then
      evalCondLines conds skip ls
    else
      l :: evalCondLines conds skip ls

/-- Model of `eval_conditionals(template, conditions)`. -/
def eval_conditionals (template : String) (conditions : List String) : String :=
  joinLines (evalCondLines conditions false (pylines template))

/-! ## `replace_placeholders` (solver.py lines 75-88) -/

/-- Model of `replace_placeholders(template, placeholders)`: replace every
occurrence of the bracketed form `\x7b\x7b KEY \x7d\x7d` of each key, in
insertion order of the placeholder association list. -/
def replace_placeholders (template : String)
    (placeholders : List (String × String)) : String :=
  placeholders.foldl
    (fun t kv => pyReplace t ("\x7b\x7b " ++ kv.1 ++ " \x7d\x7d") kv.2) template

/-! ## `call_strips_solver` (solver.py lines 208-238) -/

/-- The outcome of one solver invocation: exit classification, the
diagnostic lines the code surfaces, and the parsed plan. -/
structure SolverOutcome where
  succeeded : Bool
  diagnostics : List String
  plan : List String
deriving DecidableEq, Repr

/-- The stdout scan loop of `call_strips_solver`: first argument is the
`start_parsing` flag; returns the `"[STRIPS]"`-prefixed diagnostic lines
and the collected plan lines, each in encounter order. -/
def scanOutput : Bool → List String → List String × List String
  | _, [] => ([], [])
  | inPlan, l :: ls =>
    if pyStartsWith l "[STRIPS]" then
      let r := scanOutput inPlan ls
      (l :: r.1, r.2)
    else if l = "===BEGIN_PLAN===" then
      scanOutput true ls
    else if l = "===END_PLAN===" then
      scanOutput false ls
    else if inPlan then
      let r := scanOutput inPlan ls
      (r.1, pyStrip l :: r.2)
    else
      scanOutput inPlan ls

/-- Model of `call_strips_solver`: the subprocess result (return code,
captured stdout, captured stderr) is passed in. A non-zero return code
short-circuits with the captured stderr as the sole diagnostic and an
empty plan; otherwise the captured stdout is scanned line by line. -/
def call_strips_solver (returncode : Int) (stdout stderr : String) :
    SolverOutcome :=
  if returncode ≠ 0 then ⟨false, [stderr], []⟩
  else
    let dp := scanOutput false (pylines stdout)
    ⟨true, dp.1, dp.2⟩

/-! ## `solve_predefined` (solver.py lines 178-195) -/

/-- The fixed catalogue of predefined endgame names (solver.py lines 29-38). -/
def PREDEFINED_ENDGAMES : List String :=
  ["Byrd", "Jim-Bob", "Mr-NewVegas", "Marston",
   "AERO-X", "StegoMate", "Pim", "Tonniewhood"]

/-- Model of `solve_predefined(endgame_name)`: `none` is the error return
(the `UnknownEndgame` signal, no solver call); `some p` means
`call_strips_solver` is invoked with the wff path `p`. -/
def solve_predefined (endgame_name : String) : Option String :=
  if endgame_name ∉ PREDEFINED_ENDGAMES ∧ pyIsDigit endgame_name = false then
    none
  else
    let endgame_number : Nat :=
      if pyIsDigit endgame_name then pyInt endgame_name
      else PREDEFINED_ENDGAMES.indexOf endgame_name + 1
    some ("solver/predefined/endgame" ++ toString endgame_number ++ ".wff")

/-! ## The position extractor inside `generate_wff_file`
(solver.py lines 102-134) -/

/-- The whitelist of accepted FEN strings (solver.py lines 14-23). -/
def VALID_FENS : List String :=
  ["1k6/8/K1R5/8/8/8/8/2R5 w - - 0 1",
   "1k6/8/1KQ5/8/8/8/8/8 w - - 0 1",
   "6k1/8/5R1K/8/8/8/8/5R2 w - - 0 1",
   "7k/8/6K1/5R2/8/8/8/8 w - - 0 1",
   "8/2R5/8/8/8/1K6/8/k7 w - - 0 1",
   "7k/8/4Q1K1/8/8/8/8/8 w - - 0 1",
   "3Q4/8/k1K5/8/8/8/8/8 w - - 0 1",
   "4Q3/8/5K1k/8/8/8/8/8 w - - 0 1"]

/-- Model of `PIECE_MAP.get(c, 'unknown')` (solver.py lines 24-27). -/
def PIECE_MAP (c : Char) : String :=
  if c = 'Q' then "queen" else if c = 'R' then "rook" else "unknown"

/-- A Python dict as an insertion-ordered association list: assignment
overwrites an existing key in place, otherwise appends. -/
def dictSet (d : List (String × String)) (k v : String) :
    List (String × String) :=
  if d.any (fun kv => kv.1 == k) then
    d.map (fun kv => if kv.1 == k then (k, v) else kv)
  else d ++ [(k, v)]

/-- Model of `d.get(k)` on the association-list dict. -/
def dictGet (d : List (String × String)) (k : String) : Option String :=
  (d.find? (fun kv => kv.1 == k)).map (fun kv => kv.2)

/-- Python `chr(ord('a') + file).upper()`. -/
def fileLetter (file : Nat) : String :=
  ⟨[(Char.ofNat ('a'.toNat + file)).toUpper]⟩

/-- Python `str(8 - r)` for the zero-based rank row index. -/
def rankStr (r : Nat) : String :=
  toString ((8 : Int) - (r : Int))

/-- The accumulating extraction state: the placeholder dict and the
non-king piece count. -/
structure ExtractAcc where
  placeholders : List (String × String)
  num_pieces : Nat
deriving DecidableEq, Repr

/-- One character of a FEN row (solver.py lines 108-124): digits advance
the file cursor, `K` sets the white-king placeholders, another uppercase
letter records the next numbered piece, a lowercase letter sets the
black-king placeholders; every non-digit advances the cursor by one. -/
def processChar (r : Nat) (acc : ExtractAcc × Nat) (c : Char) :
    ExtractAcc × Nat :=
  let es := acc.1
  let file := acc.2
  if c.isDigit then (es, file + (c.toNat - '0'.toNat))
  else
    let es' :=
      if c.isUpper then
        if c = 'K' then
          let ph := dictSet es.placeholders "WHITE_KING_FILE" (fileLetter file)
          let ph := dictSet ph "WHITE_KING_RANK" (rankStr r)
          { es with placeholders := ph }
        else
          let n := es.num_pieces + 1
          let ph := dictSet es.placeholders ("PIECE" ++ toString n ++ "_FILE")
            (fileLetter file)
          let ph := dictSet ph ("PIECE" ++ toString n ++ "_RANK") (rankStr r)
          let ph := dictSet ph ("PIECE" ++ toString n ++ "_TYPE")
            (PIECE_MAP c.toUpper)
          { placeholders := ph, num_pieces := n }
      else
        let ph := dictSet es.placeholders "BLACK_KING_FILE" (fileLetter file)
        let ph := dictSet ph "BLACK_KING_RANK" (rankStr r)
        { es with placeholders := ph }
    (es', file + 1)

/-- One FEN row: fold the characters with the file cursor reset to 0. -/
def processRow (es : ExtractAcc) (r : Nat) (row : String) : ExtractAcc :=
  (row.data.foldl (processChar r) (es, 0)).1

/-- Python `fen_string.split(' ')[0].split('/')`. -/
def fenRows (fen : String) : List String :=
  pySplitChar ((pySplitChar fen ' ').getD 0 "") '/'

/-- The placeholder dict and condition list `generate_wff_file` builds for
a FEN string (solver.py lines 102-134): extraction over all rows, then the
secondary-piece fixup (`NIL` type/color when exactly one piece, otherwise
the `TWO_PIECE` tag and a white secondary color) and the `QUEEN` tag when
the primary piece is a queen. -/
def fenPlaceholders (fen : String) : List (String × String) × List String :=
  let es := (fenRows fen).enum.foldl (fun a p => processRow a p.1 p.2) ⟨[], 0⟩
  let pc :=
    if es.num_pieces = 1 then
      (dictSet (dictSet es.placeholders "PIECE2_TYPE" "NIL")
        "PIECE2_COLOR" "NIL", ([] : List String))
    else
      (dictSet es.placeholders "PIECE2_COLOR" "white", ["TWO_PIECE"])
  if dictGet pc.1 "PIECE1_TYPE" = some "queen" then
    (pc.1, pc.2 ++ ["QUEEN"])
  else pc

/-! ## The file-system model and `generate_wff_file` / `solve_from_fen`
(solver.py lines 90-160) -/

/-- The file system as a partial map from paths to contents. -/
abbrev FS := String → Option String

/-- Writing a file. -/
def fsWrite (fs : FS) (p c : String) : FS :=
  fun q => if q = p then some c else fs q

/-- `Path.unlink()`. -/
def fsRemove (fs : FS) (p : String) : FS :=
  fun q => if q = p then none else fs q

/-- `Path.exists()`. -/
def fsExists (fs : FS) (p : String) : Bool :=
  (fs p).isSome

/-- `TEMP_WFF_PATH` (solver.py line 13). -/
def TEMP_WFF_PATH : String := "solver/temp_endgame.wff"

/-- The rendered wff content: conditionals evaluated, then placeholders
substituted (solver.py lines 138-139). -/
def renderWff (fen template : String) : String :=
  replace_placeholders (eval_conditionals template (fenPlaceholders fen).2)
    (fenPlaceholders fen).1

/-- Model of `generate_wff_file(fen_string, output_path)`: the template
file's content is passed in (it is an external asset read from disk); a
FEN outside the whitelist is the error return, leaving the file system
untouched; otherwise the rendered content is written to `output_path`. -/
def generate_wff_file (fen template outputPath : String) (fs : FS) : FS :=
  if fen ∈ VALID_FENS then fsWrite fs outputPath (renderWff fen template)
  else fs

/-- Model of `solve_from_fen(fen_string)`: a FEN outside the whitelist is
the error return (`none`, nothing written); otherwise the temp wff file is
generated, the solver is invoked (its subprocess result passed in), and the
temp file is unlinked when it exists. Returns the final file system and
the solver outcome. -/
def solve_from_fen (fen template : String) (returncode : Int)
    (stdout stderr : String) (fs : FS) : FS × Option SolverOutcome :=
  if fen ∈ VALID_FENS then
    let fs1 := generate_wff_file fen template TEMP_WFF_PATH fs
    let outcome := call_strips_solver returncode stdout stderr
    let fs2 := if fsExists fs1 TEMP_WFF_PATH then fsRemove fs1 TEMP_WFF_PATH
               else fs1
    (fs2, some outcome)
  else (fs, none)

/-! ## Auxiliary notions for the theorems -/

/-- A template line list with no conditional marker lines: no line is an
opening marker and none strips to the closing marker. -/
def markerFreeLines (ls : List String) : Prop :=
  ∀ l ∈ ls, isOpenMarker l = false ∧ pyStrip l ≠ "]]"

instance (ls : List String) : Decidable (markerFreeLines ls) := by
  unfold markerFreeLines; infer_instance

/-- The `start_parsing` transition of one stdout line in `scanOutput`. -/
def nextState (s : Bool) (l : String) : Bool :=
  if pyStartsWith l "[STRIPS]" then s
  else if l = "===BEGIN_PLAN===" then true
  else if l = "===END_PLAN===" then false
  else s

/-- The `start_parsing` flag after scanning a list of stdout lines. -/
def stateAfter : Bool → List String → Bool
  | s, [] => s
  | s, l :: ls => stateAfter (nextState s l) ls

/-- A line list containing neither plan sentinel. -/
def sentinelFree (ls : List String) : Prop :=
  "===BEGIN_PLAN===" ∉ ls ∧ "===END_PLAN===" ∉ ls

instance (ls : List String) : Decidable (sentinelFree ls) := by
  unfold sentinelFree; infer_instance

/-- A stdout line list made of begin/end-delimited plan regions: for each
pair, lines outside the region, then the begin sentinel, the region's
lines and the end sentinel; ending in trailing lines. -/
def buildStream : List (List String × List String) → List String → List String
  | [], tail => tail
  | (out, reg) :: rest, tail =>
    out ++ "===BEGIN_PLAN===" :: (reg ++ "===END_PLAN===" :: buildStream rest tail)

/-- The plan-content selection of a region's lines: the lines that are not
diagnostics, each trimmed. -/
def planContent (ls : List String) : List String :=
  (ls.filter (fun l => !pyStartsWith l "[STRIPS]")).map pyStrip

/-! ## Helper lemmas about the conditional evaluator and the stdout scan -/

/-- On a marker-free line list the conditional evaluator emits every line
unchanged, for any condition set. -/
theorem evalCondLines_of_markerFree (conds : List String) (ls : List String)
    (h : markerFreeLines ls) : evalCondLines conds false ls = ls := by
  induction ls with
  | nil => rfl
  | cons a ls ih =>
    obtain ⟨h1, h2⟩ := h a (List.mem_cons_self a ls)
    have hrest : markerFreeLines ls := fun l hl => h l (List.mem_cons_of_mem a hl)
    simp [evalCondLines, h1, h2, ih hrest]

/-- Scanning a concatenation: the diagnostics and plan of the first part,
followed by those of the second part scanned from the carried-over state. -/
theorem scanOutput_append (xs : List String) : ∀ (s : Bool) (ys : List String),
    scanOutput s (xs ++ ys) =
      ((scanOutput s xs).1 ++ (scanOutput (stateAfter s xs) ys).1,
       (scanOutput s xs).2 ++ (scanOutput (stateAfter s xs) ys).2) := by
  induction xs with
  | nil => intro s ys; simp [scanOutput, stateAfter]
  | cons l ls ih =>
    intro s ys
    simp only [List.cons_append, scanOutput, stateAfter, nextState]
    split_ifs with h1 h2 h3 h4 <;> simp [ih]

/-- A begin sentinel turns the plan region on, whatever the state was. -/
theorem scanOutput_begin (s : Bool) (ls : List String) :
    scanOutput s ("===BEGIN_PLAN===" :: ls) = scanOutput true ls := rfl

/-- An end sentinel turns the plan region off, whatever the state was. -/
theorem scanOutput_end (s : Bool) (ls : List String) :
    scanOutput s ("===END_PLAN===" :: ls) = scanOutput false ls := rfl

/-- Outside the plan region, sentinel-free lines contribute nothing to the
plan. -/
theorem scanOutput_plan_skip (out : List String) (hout : sentinelFree out)
    (rest : List String) :
    (scanOutput false (out ++ rest)).2 = (scanOutput false rest).2 := by
  induction out with
  | nil => rfl
  | cons l ls ih =>
    have hB : ¬l = "===BEGIN_PLAN===" := fun hc => hout.1 (hc ▸ List.mem_cons_self l ls)
    have hE : ¬l = "===END_PLAN===" := fun hc => hout.2 (hc ▸ List.mem_cons_self l ls)
    have hrest : sentinelFree ls :=
      ⟨fun hc => hout.1 (List.mem_cons_of_mem l hc),
       fun hc => hout.2 (List.mem_cons_of_mem l hc)⟩
    simp only [List.cons_append, scanOutput]
    split_ifs <;> simp_all [ih hrest]

/-- Inside the plan region, sentinel-free lines contribute exactly their
plan content (non-diagnostic lines, trimmed, in order) before whatever the
remaining lines contribute. -/
theorem scanOutput_plan_collect (reg : List String) (hreg : sentinelFree reg)
    (rest : List String) :
    (scanOutput true (reg ++ rest)).2 =
      planContent reg ++ (scanOutput true rest).2 := by
  induction reg with
  | nil => rfl
  | cons l ls ih =>
    have hB : ¬l = "===BEGIN_PLAN===" := fun hc => hreg.1 (hc ▸ List.mem_cons_self l ls)
    have hE : ¬l = "===END_PLAN===" := fun hc => hreg.2 (hc ▸ List.mem_cons_self l ls)
    have hrest : sentinelFree ls :=
      ⟨fun hc => hreg.1 (List.mem_cons_of_mem l hc),
       fun hc => hreg.2 (List.mem_cons_of_mem l hc)⟩
    simp only [List.cons_append, scanOutput]
    split_ifs <;> simp_all [planContent, List.filter_cons, ih hrest]

/-- Scanning a stream of sentinel-free regions delimited by begin/end
pairs yields the concatenation of the regions' plan contents. -/
theorem scanOutput_regions (segs : List (List String × List String)) :
    ∀ tail, (∀ p ∈ segs, sentinelFree p.1 ∧ sentinelFree p.2) →
      sentinelFree tail →
      (scanOutput false (buildStream segs tail)).2 =
        (segs.map (fun p => planContent p.2)).flatten := by
  induction segs with
  | nil =>
    intro tail _ htail
    have h0 : (scanOutput false (tail ++ [])).2 = (scanOutput false []).2 :=
      scanOutput_plan_skip tail htail []
    simpa [buildStream] using h0
  | cons p rest ih =>
    intro tail hsegs htail
    obtain ⟨hout, hreg⟩ := hsegs p (List.mem_cons_self p rest)
    have hrest : ∀ q ∈ rest, sentinelFree q.1 ∧ sentinelFree q.2 :=
      fun q hq => hsegs q (List.mem_cons_of_mem p hq)
    calc (scanOutput false (buildStream (p :: rest) tail)).2
        = (scanOutput false
            ("===BEGIN_PLAN===" :: (p.2 ++ "===END_PLAN===" :: buildStream rest tail))).2 := by
          rw [buildStream]; rw [scanOutput_plan_skip p.1 hout]
      _ = (scanOutput true (p.2 ++ "===END_PLAN===" :: buildStream rest tail)).2 := by
          rw [scanOutput_begin]
      _ = planContent p.2 ++ (scanOutput true ("===END_PLAN===" :: buildStream rest tail)).2 := by
          rw [scanOutput_plan_collect p.2 hreg]
      _ = planContent p.2 ++ (scanOutput false (buildStream rest tail)).2 := by
          rw [scanOutput_end]
      _ = planContent p.2 ++ ((rest.map (fun q => planContent q.2)).flatten) := by
          rw [ih tail hrest htail]
      _ = ((p :: rest).map (fun q => planContent q.2)).flatten := by simp

/-- No line kept by the conditional evaluator strips to the closing
marker. -/
theorem evalCondLines_no_close (conds : List String) (ls : List String) :
    ∀ (skip : Bool) (l : String),
      l ∈ evalCondLines conds skip ls → pyStrip l ≠ "]]" := by
  induction ls with
  | nil => intro skip l hl; simp [evalCondLines] at hl
  | cons a ls ih =>
    intro skip l hl
    simp only [evalCondLines] at hl
    split_ifs at hl with h1 h2 h3
    · exact ih _ l hl
    · exact ih _ l hl
    · exact ih _ l hl
    · rcases List.mem_cons.mp hl with rfl | h
      · exact h2
      · exact ih _ l h

/-! ## The claims -/

/-- C1 counterexample: the claim says every secondary-piece placeholder
(file, rank, type) is mapped to the absent marker `NIL` for the one-queen
position; in fact the secondary piece's FILE placeholder is simply not in
the map at all (only its TYPE and COLOR are set to `NIL`). -/
theorem c1_counterexample :
    dictGet (fenPlaceholders "7k/8/4Q1K1/8/8/8/8/8 w - - 0 1").1 "PIECE2_FILE"
      = none := by decide

/-- C1 amended: compiling the two-rook position populates both pieces'
file/rank/type placeholders with real values (not `NIL`) and tags
`TWO_PIECE`; compiling the one-queen position populates exactly the
primary piece's placeholders, sets the secondary piece's TYPE and COLOR
placeholders to the literal `NIL` while leaving its FILE and RANK
placeholders unmapped, omits the `TWO_PIECE` tag and includes the `QUEEN`
tag. -/
theorem c1_end_to_end_compile :
    (dictGet (fenPlaceholders "1k6/8/K1R5/8/8/8/8/2R5 w - - 0 1").1 "PIECE1_FILE" = some "C" ∧
     dictGet (fenPlaceholders "1k6/8/K1R5/8/8/8/8/2R5 w - - 0 1").1 "PIECE1_RANK" = some "6" ∧
     dictGet (fenPlaceholders "1k6/8/K1R5/8/8/8/8/2R5 w - - 0 1").1 "PIECE1_TYPE" = some "rook" ∧
     dictGet (fenPlaceholders "1k6/8/K1R5/8/8/8/8/2R5 w - - 0 1").1 "PIECE2_FILE" = some "C" ∧
     dictGet (fenPlaceholders "1k6/8/K1R5/8/8/8/8/2R5 w - - 0 1").1 "PIECE2_RANK" = some "1" ∧
     dictGet (fenPlaceholders "1k6/8/K1R5/8/8/8/8/2R5 w - - 0 1").1 "PIECE2_TYPE" = some "rook" ∧
     "TWO_PIECE" ∈ (fenPlaceholders "1k6/8/K1R5/8/8/8/8/2R5 w - - 0 1").2) ∧
    (dictGet (fenPlaceholders "7k/8/4Q1K1/8/8/8/8/8 w - - 0 1").1 "PIECE1_FILE" = some "E" ∧
     dictGet (fenPlaceholders "7k/8/4Q1K1/8/8/8/8/8 w - - 0 1").1 "PIECE1_RANK" = some "6" ∧
     dictGet (fenPlaceholders "7k/8/4Q1K1/8/8/8/8/8 w - - 0 1").1 "PIECE1_TYPE" = some "queen" ∧
     dictGet (fenPlaceholders "7k/8/4Q1K1/8/8/8/8/8 w - - 0 1").1 "PIECE2_TYPE" = some "NIL" ∧
     dictGet (fenPlaceholders "7k/8/4Q1K1/8/8/8/8/8 w - - 0 1").1 "PIECE2_COLOR" = some "NIL" ∧
     dictGet (fenPlaceholders "7k/8/4Q1K1/8/8/8/8/8 w - - 0 1").1 "PIECE2_FILE" = none ∧
     dictGet (fenPlaceholders "7k/8/4Q1K1/8/8/8/8/8 w - - 0 1").1 "PIECE2_RANK" = none ∧
     "TWO_PIECE" ∉ (fenPlaceholders "7k/8/4Q1K1/8/8/8/8/8 w - - 0 1").2 ∧
     "QUEEN" ∈ (fenPlaceholders "7k/8/4Q1K1/8/8/8/8/8 w - - 0 1").2) := by decide

/-- C2 counterexample: the claim says requesting the ordinal `"0"` signals
`UnknownEndgame` without invoking the solver; in fact `"0"` passes the
digit check and the solver is invoked with `endgame0.wff`. -/
theorem c2_counterexample :
    solve_predefined "0" = some "solver/predefined/endgame0.wff" := by decide

/-- C2 amended: the ordinal `"3"` (like the third catalogue name
`"Mr-NewVegas"`) resolves to the third entry's bound path `endgame3.wff`;
`"-1"` and names outside the catalogue signal `UnknownEndgame`; but any
all-digit ordinal - including `"0"` and out-of-range values such as
`"99"` - is accepted without a range check and the solver is invoked with
the correspondingly numbered path. -/
theorem c2_registry_lookup :
    solve_predefined "3" = some "solver/predefined/endgame3.wff" ∧
    solve_predefined "Mr-NewVegas" = some "solver/predefined/endgame3.wff" ∧
    solve_predefined "-1" = none ∧
    solve_predefined "Bogus" = none ∧
    solve_predefined "0" = some "solver/predefined/endgame0.wff" ∧
    solve_predefined "99" = some "solver/predefined/endgame99.wff" := by decide

/-- C3 counterexample: the claim says the parsed outcome of the given
stdout has `diagnostics = ["[DIAG] hello"]`; in fact the diagnostic marker
the code checks is `"[STRIPS]"`, so the `"[DIAG] hello"` line is dropped
silently and diagnostics is empty. -/
theorem c3_counterexample :
    (call_strips_solver 0
      "[DIAG] hello\n===BEGIN_PLAN===\nstep-1\nstep-2\n===END_PLAN===\n" "").diagnostics
      ≠ ["[DIAG] hello"] := by decide

/-- C3 amended: with exit code 0 and the quoted stdout the outcome has
`succeeded = true` and `plan = ["step-1", "step-2"]`, but
`diagnostics = []` because `"[DIAG] hello"` does not carry the fixed
marker `"[STRIPS]"`; with the marker spelled `"[STRIPS] hello"` the line
is collected verbatim as the sole diagnostic. -/
theorem c3_solver_output_parse :
    call_strips_solver 0
      "[DIAG] hello\n===BEGIN_PLAN===\nstep-1\nstep-2\n===END_PLAN===\n" ""
      = ⟨true, [], ["step-1", "step-2"]⟩ ∧
    call_strips_solver 0
      "[STRIPS] hello\n===BEGIN_PLAN===\nstep-1\nstep-2\n===END_PLAN===\n" ""
      = ⟨true, ["[STRIPS] hello"], ["step-1", "step-2"]⟩ := by decide

/-- C4 counterexample: the claim says conditional evaluation of a document
with zero marker lines is byte-identical to the input; the document
consisting of one line and a trailing newline has no marker lines, yet the
trailing newline is dropped by the splitlines/join round trip. -/
theorem c4_counterexample :
    markerFreeLines (pylines "abc\n") ∧
    eval_conditionals "abc\n" [] = "abc" ∧
    eval_conditionals "abc\n" [] ≠ "abc\n" :=
  ⟨by decide, by decide, by decide⟩

/-- C4 amended: on a document with zero conditional marker lines,
`eval_conditionals` returns the newline-join of the document's lines, for
every ConditionSet (hence identical output regardless of the set's
contents); this is byte-identical to the input exactly when the input has
no trailing line terminator, a trailing newline being dropped. -/
theorem c4_conditional_idempotence (t : String) (c c' : List String)
    (h : markerFreeLines (pylines t)) :
    eval_conditionals t c = joinLines (pylines t) ∧
    eval_conditionals t c' = eval_conditionals t c := by
  unfold eval_conditionals
  rw [evalCondLines_of_markerFree c _ h, evalCondLines_of_markerFree c' _ h]
  exact ⟨rfl, rfl⟩

/-- C4 witness: a concrete marker-free two-line document rendered with two
different condition sets. -/
theorem c4_witness :
    markerFreeLines (pylines "abc\ndef") ∧
    (eval_conditionals "abc\ndef" ["TWO_PIECE"] = joinLines (pylines "abc\ndef") ∧
     eval_conditionals "abc\ndef" [] = eval_conditionals "abc\ndef" ["TWO_PIECE"]) :=
  ⟨by decide, c4_conditional_idempotence "abc\ndef" ["TWO_PIECE"] [] (by decide)⟩

/-- C5: a non-zero exit code is a hard failure - `succeeded = false`, the
plan is empty, and the diagnostics are the captured stderr content,
whatever the captured stdout was. -/
theorem c5_hard_failure (rc : Int) (h : rc ≠ 0) (stdout stderr : String) :
    call_strips_solver rc stdout stderr = ⟨false, [stderr], []⟩ := by
  simp [call_strips_solver, h]

/-- C5 witness: exit code 7 with an arbitrary stdout. -/
theorem c5_witness :
    (7 : Int) ≠ 0 ∧
    call_strips_solver 7 "===BEGIN_PLAN===\nstep-1\n===END_PLAN===" "boom"
      = ⟨false, ["boom"], []⟩ :=
  ⟨by decide,
   c5_hard_failure 7 (by decide) "===BEGIN_PLAN===\nstep-1\n===END_PLAN===" "boom"⟩

/-- C6: a position string outside the whitelist makes `generate_wff_file`
and `solve_from_fen` signal the error return with no side effects: the
file system is untouched (no planner input file created or partially
written) and no solver outcome is produced. -/
theorem c6_no_side_effects (fen : String) (h : fen ∉ VALID_FENS) :
    (∀ (template outputPath : String) (fs : FS),
      generate_wff_file fen template outputPath fs = fs) ∧
    (∀ (template : String) (rc : Int) (stdout stderr : String) (fs : FS),
      solve_from_fen fen template rc stdout stderr fs = (fs, none)) := by
  constructor
  · intro template outputPath fs
    simp [generate_wff_file, h]
  · intro template rc stdout stderr fs
    simp [solve_from_fen, h]

/-- C6 witness: the empty-board FEN is not whitelisted and both entry
points leave an empty file system unchanged. -/
theorem c6_witness :
    "8/8/8/8/8/8/8/8 w - - 0 1" ∉ VALID_FENS ∧
    generate_wff_file "8/8/8/8/8/8/8/8 w - - 0 1" "tmpl" "out.wff"
      (fun _ => none) = (fun _ => none) ∧
    solve_from_fen "8/8/8/8/8/8/8/8 w - - 0 1" "tmpl" 0 "" ""
      (fun _ => none) = ((fun _ => none), none) :=
  ⟨by decide,
   (c6_no_side_effects "8/8/8/8/8/8/8/8 w - - 0 1" (by decide)).1 "tmpl" "out.wff"
     (fun _ => none),
   (c6_no_side_effects "8/8/8/8/8/8/8/8 w - - 0 1" (by decide)).2 "tmpl" 0 "" ""
     (fun _ => none)⟩

/-- C8: for every whitelisted position, after `solve_from_fen` returns the
temporary planner input file no longer exists, whatever the solver's exit
code (success or failure path) and whatever was on the file system. -/
theorem c8_temp_cleanup (fen : String) (h : fen ∈ VALID_FENS)
    (template : String) (rc : Int) (stdout stderr : String) (fs : FS) :
    (solve_from_fen fen template rc stdout stderr fs).1 TEMP_WFF_PATH = none := by
  simp [solve_from_fen, h, generate_wff_file, fsExists, fsWrite, fsRemove]

/-- C7: when the stdout lines (under exit code 0) contain the begin
sentinel with no subsequent sentinel, the plan region stays open to the
end of output: the final plan is everything collected up to the begin
sentinel followed by the trimmed non-diagnostic lines after it, in
encounter order, with nothing dropped. -/
theorem c7_open_region (stdout stderr : String) (pre post : List String)
    (hsplit : pylines stdout = pre ++ "===BEGIN_PLAN===" :: post)
    (hpost : sentinelFree post) :
    (call_strips_solver 0 stdout stderr).plan =
      (scanOutput false pre).2 ++ planContent post := by
  have hplan : (call_strips_solver 0 stdout stderr).plan
      = (scanOutput false (pylines stdout)).2 := rfl
  rw [hplan, hsplit, scanOutput_append, scanOutput_begin]
  have hc := scanOutput_plan_collect post hpost []
  simp only [List.append_nil] at hc
  simp [hc, scanOutput]

/-- C7 witness: an unterminated plan region whose later lines include a
diagnostic and a padded step; the padded step is trimmed and every
collected line is kept. -/
theorem c7_witness :
    pylines "x\n===BEGIN_PLAN===\n step-1 \n[STRIPS] d\nstep-2"
      = ["x"] ++ "===BEGIN_PLAN===" :: [" step-1 ", "[STRIPS] d", "step-2"] ∧
    sentinelFree [" step-1 ", "[STRIPS] d", "step-2"] ∧
    (call_strips_solver 0 "x\n===BEGIN_PLAN===\n step-1 \n[STRIPS] d\nstep-2" "").plan
      = (scanOutput false ["x"]).2 ++ planContent [" step-1 ", "[STRIPS] d", "step-2"] :=
  ⟨by decide, ⟨by decide, by decide⟩,
   c7_open_region "x\n===BEGIN_PLAN===\n step-1 \n[STRIPS] d\nstep-2" "" ["x"]
     [" step-1 ", "[STRIPS] d", "step-2"] (by decide) ⟨by decide, by decide⟩⟩

/-- C9: the conditional evaluator never emits a line stripping to the
closing marker; a stray closing-marker line, met with any skip state, is
dropped and clears the skip state; and a line whose stripped form starts
with the opening bracket but which contains no condition delimiter is
ordinary content and passes through when no section is being skipped. -/
theorem c9_stray_markers (conds : List String) :
    (∀ (skip : Bool) (ls : List String) (l : String),
        l ∈ evalCondLines conds skip ls → pyStrip l ≠ "]]") ∧
    (∀ (skip : Bool) (ls : List String) (l : String), pyStrip l = "]]" →
        evalCondLines conds skip (l :: ls) = evalCondLines conds false ls) ∧
    (∀ (ls : List String) (l : String),
        pyStartsWith (pyStrip l) "[[" = true → containsDashDash l.data = false →
        evalCondLines conds false (l :: ls) = l :: evalCondLines conds false ls) := by
  refine ⟨fun skip ls l hl => evalCondLines_no_close conds ls skip l hl, ?_, ?_⟩
  · intro skip ls l h
    have hpre : pyStartsWith "]]" "[[" = false := by decide
    have hm : isOpenMarker l = false := by
      rw [isOpenMarker, h, hpre, Bool.false_and]
    simp [evalCondLines, hm, h]
  · intro ls l hs hd
    have hm : isOpenMarker l = false := by
      rw [isOpenMarker, hd, Bool.and_false]
    have hne : pyStrip l ≠ "]]" := by
      intro hc
      rw [hc] at hs
      exact absurd hs (by decide)
    simp [evalCondLines, hm, hne]

/-- C9 witness: a stray closing marker met while skipping is dropped and
clears the skip state; a bracket-opening line without the delimiter passes
through; and a rendered list never holds a line stripping to the closing
marker. -/
theorem c9_witness :
    (pyStrip " ]] " = "]]" ∧
     evalCondLines ["X"] true (" ]] " :: ["b"]) = evalCondLines ["X"] false ["b"]) ∧
    (pyStartsWith (pyStrip "[[plain") "[[" = true ∧
     containsDashDash "[[plain".data = false ∧
     evalCondLines ["X"] false ("[[plain" :: ["b"])
       = "[[plain" :: evalCondLines ["X"] false ["b"]) ∧
    (∀ l ∈ evalCondLines ["X"] false ["a", "]]", "b"], pyStrip l ≠ "]]") :=
  ⟨⟨by decide, (c9_stray_markers ["X"]).2.1 true ["b"] " ]] " (by decide)⟩,
   ⟨by decide, by decide,
    (c9_stray_markers ["X"]).2.2 ["b"] "[[plain" (by decide) (by decide)⟩,
   fun l hl => (c9_stray_markers ["X"]).1 false ["a", "]]", "b"] l hl⟩

/-- C10: when the stdout lines (under exit code 0) form two or more
begin/end-delimited plan regions, the parsed plan is the concatenation, in
encounter order, of each region's trimmed non-diagnostic lines - later
regions appended after earlier ones, none discarded. -/
theorem c10_multi_region (stdout stderr : String)
    (segs : List (List String × List String)) (tail : List String)
    (hsplit : pylines stdout = buildStream segs tail)
    (hsegs : ∀ p ∈ segs, sentinelFree p.1 ∧ sentinelFree p.2)
    (htail : sentinelFree tail) (_hlen : 2 ≤ segs.length) :
    (call_strips_solver 0 stdout stderr).plan =
      (segs.map (fun p => planContent p.2)).flatten := by
  have hplan : (call_strips_solver 0 stdout stderr).plan
      = (scanOutput false (pylines stdout)).2 := rfl
  rw [hplan, hsplit]
  exact scanOutput_regions segs tail hsegs htail

/-- C10 witness: two plan regions separated by a dropped outside line; the
plan is the first region's step followed by the second region's trimmed
step. -/
theorem c10_witness :
    pylines "===BEGIN_PLAN===\na\n===END_PLAN===\nmid\n===BEGIN_PLAN===\n b \n===END_PLAN===\nz"
      = buildStream [([], ["a"]), (["mid"], [" b "])] ["z"] ∧
    (call_strips_solver 0
      "===BEGIN_PLAN===\na\n===END_PLAN===\nmid\n===BEGIN_PLAN===\n b \n===END_PLAN===\nz" "").plan
      = ([([], ["a"]), (["mid"], [" b "])].map (fun p => planContent p.2)).flatten :=
  ⟨by decide,
   c10_multi_region
     "===BEGIN_PLAN===\na\n===END_PLAN===\nmid\n===BEGIN_PLAN===\n b \n===END_PLAN===\nz" ""
     [([], ["a"]), (["mid"], [" b "])] ["z"] (by decide) (by decide) (by decide)
     (by decide)⟩

/-- C8 witness: the first whitelisted position with a failing solver run
(exit code 7) starting from an empty file system. -/
theorem c8_witness :
    "1k6/8/K1R5/8/8/8/8/2R5 w - - 0 1" ∈ VALID_FENS ∧
    (solve_from_fen "1k6/8/K1R5/8/8/8/8/2R5 w - - 0 1" "tmpl" 7 "" "boom"
      (fun _ => none)).1 TEMP_WFF_PATH = none :=
  ⟨by decide,
   c8_temp_cleanup "1k6/8/K1R5/8/8/8/8/2R5 w - - 0 1" (by decide) "tmpl" 7 "" "boom"
     (fun _ => none)⟩

end StegoSolver
